import Mathlib

/-!
Verification of the shop-agent notebook's two hand-written functions
(`call_vector_search` and `find_shopping_items` from
`examples/python/notebooks/shop_agent.ipynb`) via a shallow embedding.

The HTTP transport is modelled as an oracle `Net` mapping the request a call
issues to its outcome (transport error, or a final response carrying a status
code and a body that either parsed as JSON or was malformed).  Side effects —
the requests issued, in order, and the lines printed — are returned explicitly
in an `Effects` record.  Python exceptions that escape the functions
(`TypeError` from subscripting `None` or a non-dict, `KeyError` from a missing
key, `TypeError` from extending by a non-iterable) are modelled as `Except`.
-/

namespace ShopAgent

/-- JSON values, the shape of parsed response bodies (`response.json()` in the
source).  Objects are association lists with the keys in insertion order, as a
Python `dict` produced by `json.loads` behaves. -/
inductive Json where
  | null : Json
  | bool (b : Bool) : Json
  | num (q : ℚ) : Json
  | str (s : String) : Json
  | arr (elems : List Json) : Json
  | obj (fields : List (String × Json)) : Json

/-- The request payload built by `call_vector_search` (the Python `payload`
dict), field for field. -/
structure SearchPayload where
  query : String
  rows : Option Int
  dataset_id : String
  use_dense : Bool
  use_sparse : Bool
  rrf_alpha : ℚ
  use_rerank : Bool
deriving DecidableEq, Repr

/-- One HTTP POST as issued by `requests.post(url, headers=headers,
data=json.dumps(payload))`: target URL, header list, and the payload that is
serialized as the body. -/
structure SearchRequest where
  url : String
  headers : List (String × String)
  payload : SearchPayload
deriving DecidableEq, Repr

/-- Outcome of one HTTP POST, as observed by the caller of `requests.post`:
either a transport-level failure (connection error, timeout, too many
redirects, ... — any `RequestException` raised by `post` itself), or a final
response with its status code and its body.  `body = none` models a body that
is not valid JSON, so that `response.json()` raises
`requests.exceptions.JSONDecodeError` (a `RequestException` subclass). -/
inductive HttpOutcome where
  | transportError (msg : String) : HttpOutcome
  | response (status : Nat) (body : Option Json) : HttpOutcome

/-- The network oracle: what outcome the world gives to each request. -/
def Net : Type := SearchRequest → HttpOutcome

/-- Observable side effects of a run: the requests issued, in issue order, and
the lines printed, in print order. -/
structure Effects where
  calls : List SearchRequest
  log : List String
deriving DecidableEq, Repr

/-- Sequencing of side effects: the second run's calls and prints follow the
first's. -/
def Effects.seq (e₁ e₂ : Effects) : Effects :=
  ⟨e₁.calls ++ e₂.calls, e₁.log ++ e₂.log⟩

/-- The headers built by `call_vector_search`:
`{'Content-Type': 'application/json'}`. -/
def searchHeaders : List (String × String) :=
  [("Content-Type", "application/json")]

/-- The payload dict built by `call_vector_search`, with its fixed defaults
(the Python literal `0.5` is the exact rational 1/2). -/
def mkPayload (query : String) (rows : Option Int) : SearchPayload :=
  { query := query
    rows := rows
    dataset_id := "mercari3m_mm"
    use_dense := true
    use_sparse := true
    rrf_alpha := 1/2
    use_rerank := true }

/-- The full request `call_vector_search` issues for a given url, query and
row limit. -/
def mkRequest (url query : String) (rows : Option Int) : SearchRequest :=
  ⟨url, searchHeaders, mkPayload query rows⟩

/-- The message printed by `call_vector_search` when a `RequestException` is
caught: `print(f"Error calling the API: {e}")`.  The rendering of the caught
exception is library-generated text; it is modelled abstractly as a detail
string carried by the outcome. -/
def errorMessage (detail : String) : String :=
  "Error calling the API: " ++ detail

/-- The exception text produced by `response.raise_for_status()` for a status
code in 400–599, modelled abstractly by the status code. -/
def statusErrorText (status : Nat) : String :=
  "status " ++ toString status

/-- Semantics of `response.raise_for_status()`: it raises `HTTPError` exactly
for status codes 400–599 (client and server errors); informational, success
and redirect statuses do not raise. -/
def raisesForStatus (status : Nat) : Bool :=
  400 ≤ status && status < 600

/-- Success statuses in the HTTP sense: the 2xx range. -/
def is2xx (status : Nat) : Bool :=
  200 ≤ status && status < 300

/-- Failure outcomes in the sense of the error-handling design: a transport
error, a status `raise_for_status` raises for, or a body that fails to parse
as JSON. -/
def failureOutcome : HttpOutcome → Bool
  | .transportError _ => true
  | .response status body => raisesForStatus status || body.isNone

/-- Shallow embedding of `call_vector_search(url, query, rows=None)`:
builds the headers and payload, issues one POST, raises for bad status codes,
parses the body; every `RequestException` (transport error, `HTTPError` from
`raise_for_status`, `JSONDecodeError` from `response.json()`) is caught,
a message is printed, and `None` is returned.  Returns the Python return
value (`None` or the parsed JSON) together with the side effects. -/
def call_vector_search (net : Net) (url query : String)
    (rows : Option Int := none) : Option Json × Effects :=
  let req := mkRequest url query rows
  match net req with
  | .transportError msg => (none, ⟨[req], [errorMessage msg]⟩)
  | .response status body =>
    if raisesForStatus status then
      (none, ⟨[req], [errorMessage (statusErrorText status)]⟩)
    else
      match body with
      | none => (none, ⟨[req], [errorMessage "malformed JSON body"]⟩)
      | some j => (some j, ⟨[req], []⟩)

/-- Python exceptions that escape `find_shopping_items` unhandled. -/
inductive PyErr where
  | typeError (msg : String) : PyErr
  | keyError (key : String) : PyErr

/-- Python subscripting `result["items"]` where `result` is `None` or a value
decoded from JSON: `None` and non-dict values raise `TypeError`; a dict
missing the key raises `KeyError`; a dict with the key yields its value. -/
def pySubscript (result : Option Json) (key : String) : Except PyErr Json :=
  match result with
  | none => .error (.typeError "NoneType object is not subscriptable")
  | some (.obj fields) =>
    match fields.lookup key with
    | some v => .ok v
    | none => .error (.keyError key)
  | some _ => .error (.typeError "value is not subscriptable by a string key")

/-- Python `items.extend(v)` for a JSON-decoded `v`: a list extends by its
elements, a string by its one-character substrings, a dict by its keys
(Python iterates a dict over its keys); `None`, booleans and numbers are not
iterable and raise `TypeError`. -/
def pyExtend (items : List Json) (v : Json) : Except PyErr (List Json) :=
  match v with
  | .arr xs => .ok (items ++ xs)
  | .str s => .ok (items ++ s.toList.map fun c => .str (String.mk [c]))
  | .obj fields => .ok (items ++ fields.map fun p => .str p.1)
  | _ => .error (.typeError "object is not iterable")

/-- CPython `repr` of a string, for strings that contain no quote, backslash
or non-printable character (the only ones the notebook passes): the text
wrapped in single quotes. -/
def pyReprStr (s : String) : String :=
  "\x27" ++ s ++ "\x27"

/-- CPython `repr` of a list of strings: the elements' reprs, comma-separated,
in square brackets. -/
def pyReprStrList (qs : List String) : String :=
  "[" ++ String.intercalate ", " (qs.map pyReprStr) ++ "]"

/-- The fixed endpoint URL in `find_shopping_items`. -/
def shopUrl : String :=
  "https://www.ac0.cloudadvocacyorg.joonix.net/api/query"

/-- The `for query in queries:` loop of `find_shopping_items`, with the
accumulated `items` list made explicit: each iteration calls
`call_vector_search(url=url, query=query, rows=3)` and then evaluates
`items.extend(result["items"])`; an exception aborts the loop, keeping the
side effects already produced. -/
def findLoop (net : Net) (url : String) :
    List String → List Json → Except PyErr (List Json) × Effects
  | [], items => (.ok items, ⟨[], []⟩)
  | query :: rest, items =>
    let res := call_vector_search net url query (some 3)
    match pySubscript res.1 "items" with
    | .error e => (.error e, res.2)
    | .ok v =>
      match pyExtend items v with
      | .error e => (.error e, res.2)
      | .ok items' =>
        let r := findLoop net url rest items'
        (r.1, res.2.seq r.2)

/-- The summary block `find_shopping_items` prints after the loop. -/
def summaryLog (queries : List String) (items : List Json) : List String :=
  [ "-----"
  , "User queries: " ++ pyReprStrList queries
  , "Found: " ++ toString items.length ++ " items"
  , "-----" ]

/-- Shallow embedding of `find_shopping_items(queries)`: runs the lookup loop
against the fixed endpoint URL starting from `items = []`; if the loop
completes it prints the summary and returns the bare Python list `items`
(modelled as `Json.arr`), despite the declared `Dict[str, str]` return type;
if an iteration raises, the exception propagates unhandled. -/
def find_shopping_items (net : Net) (queries : List String) :
    Except PyErr Json × Effects :=
  let r := findLoop net shopUrl queries []
  match r.1 with
  | .error e => (.error e, r.2)
  | .ok items => (.ok (.arr items), r.2.seq ⟨[], summaryLog queries items⟩)

/-- The requests a fully successful run issues: one per query, in input
order, each with row limit 3 against the fixed endpoint. -/
def expectedCalls (queries : List String) : List SearchRequest :=
  queries.map fun q => mkRequest shopUrl q (some 3)

/-- A lookup for query `q` is well formed under `net` when the endpoint
answers the request `find_shopping_items` issues for `q` with status 200 and
a JSON object binding `"items"` to an array. -/
def wellFormed (net : Net) (q : String) : Prop :=
  ∃ xs, net (mkRequest shopUrl q (some 3)) =
    .response 200 (some (.obj [("items", .arr xs)]))

/-- A lookup for query `q` is bad under `net` in the sense of the error
claims: `call_vector_search` returns `None` for it, or returns a JSON object
lacking the `"items"` key. -/
def badLookup (net : Net) (q : String) : Prop :=
  (call_vector_search net shopUrl q (some 3)).1 = none ∨
  ∃ fields, (call_vector_search net shopUrl q (some 3)).1 = some (.obj fields) ∧
    fields.lookup "items" = none

/-- A network in which every request fails at the transport level. -/
def failNet : Net := fun _ => .transportError "connection refused"

/-- A network that answers every request with status 200 and an empty item
list. -/
def emptyItemsNet : Net :=
  fun _ => .response 200 (some (.obj [("items", .arr [])]))

/-- A network that answers every request with a 304 (a non-2xx status
`raise_for_status` does not raise for) carrying a well-formed JSON body. -/
def redirectNet : Net :=
  fun _ => .response 304 (some (.obj [("items", .arr [])]))

/-- Three mocked items for the first example query. -/
def itemsA : List Json := [.str "a1", .str "a2", .str "a3"]

/-- Three mocked items for the second example query. -/
def itemsB : List Json := [.str "b1", .str "b2", .str "b3"]

/-- The per-query mocked item lists of the spec's example scenario. -/
def itemsOfTwo (q : String) : List Json :=
  if q = "Cups with dancing people" then itemsA else itemsB

/-- A network serving the spec's example scenario: each request is answered
with status 200 and the mocked items for its query. -/
def twoQueryNet : Net := fun r =>
  .response 200 (some (.obj [("items", .arr (itemsOfTwo r.payload.query))]))

/-- A network that agrees with `failNet` on requests with row limit 3 and
differs elsewhere. -/
def mixedNet : Net := fun r =>
  if r.payload.rows = some 3 then .transportError "connection refused"
  else .response 200 (some (.obj [("items", .arr [])]))

/-- Every branch of `call_vector_search` issues exactly the one request it
built. -/
theorem call_vector_search_calls (net : Net) (url query : String)
    (rows : Option Int) :
    (call_vector_search net url query rows).2.calls = [mkRequest url query rows] := by
  cases h : net (mkRequest url query rows) with
  | transportError msg => simp [call_vector_search, h]
  | response status body =>
    by_cases hs : raisesForStatus status = true
    · simp [call_vector_search, h, hs]
    · cases body <;> simp [call_vector_search, h, hs]

/-- `call_vector_search` consults the network only at the request it issues. -/
theorem call_vector_search_local (net₁ net₂ : Net) (url query : String)
    (rows : Option Int)
    (h : net₂ (mkRequest url query rows) = net₁ (mkRequest url query rows)) :
    call_vector_search net₂ url query rows = call_vector_search net₁ url query rows := by
  simp only [call_vector_search]
  rw [h]

/-- Reduction of `call_vector_search` on a well-formed 200 response. -/
theorem call_vector_search_ok (net : Net) (url query : String)
    (rows : Option Int) (j : Json)
    (h : net (mkRequest url query rows) = .response 200 (some j)) :
    call_vector_search net url query rows =
      (some j, ⟨[mkRequest url query rows], []⟩) := by
  simp only [call_vector_search]
  rw [h]
  rfl

/-- Step equation for the lookup loop when subscripting the response fails. -/
theorem findLoop_cons_sub_err (net : Net) (url q : String) (rest : List String)
    (items : List Json) (e : PyErr)
    (hsub : pySubscript (call_vector_search net url q (some 3)).1 "items" = .error e) :
    findLoop net url (q :: rest) items =
      (.error e, (call_vector_search net url q (some 3)).2) := by
  simp only [findLoop, hsub]

/-- Step equation for the lookup loop when extending the item list fails. -/
theorem findLoop_cons_ext_err (net : Net) (url q : String) (rest : List String)
    (items : List Json) (v : Json) (e : PyErr)
    (hsub : pySubscript (call_vector_search net url q (some 3)).1 "items" = .ok v)
    (hext : pyExtend items v = .error e) :
    findLoop net url (q :: rest) items =
      (.error e, (call_vector_search net url q (some 3)).2) := by
  simp only [findLoop, hsub, hext]

/-- Step equation for the lookup loop when the head iteration succeeds. -/
theorem findLoop_cons_ok (net : Net) (url q : String) (rest : List String)
    (items : List Json) (v : Json) (items' : List Json)
    (hsub : pySubscript (call_vector_search net url q (some 3)).1 "items" = .ok v)
    (hext : pyExtend items v = .ok items') :
    findLoop net url (q :: rest) items =
      ((findLoop net url rest items').1,
        (call_vector_search net url q (some 3)).2.seq (findLoop net url rest items').2) := by
  simp only [findLoop, hsub, hext]

/-- The lookup loop issues the head query's request first, whatever happens
afterwards. -/
theorem findLoop_calls_cons (net : Net) (url q : String) (rest : List String)
    (items : List Json) :
    ∃ tail, (findLoop net url (q :: rest) items).2.calls =
      mkRequest url q (some 3) :: tail := by
  have hc := call_vector_search_calls net url q (some 3)
  cases hsub : pySubscript (call_vector_search net url q (some 3)).1 "items" with
  | error e => exact ⟨[], by rw [findLoop_cons_sub_err net url q rest items e hsub]; simp [hc]⟩
  | ok v =>
    cases hext : pyExtend items v with
    | error e =>
      exact ⟨[], by rw [findLoop_cons_ext_err net url q rest items v e hsub hext]; simp [hc]⟩
    | ok items' =>
      exact ⟨(findLoop net url rest items').2.calls, by
        rw [findLoop_cons_ok net url q rest items v items' hsub hext]
        simp [Effects.seq, hc]⟩

/-- Every request the lookup loop issues is the fixed-shape request for one
of its queries, with row limit 3. -/
theorem findLoop_calls_shape (net : Net) (url : String) (qs : List String)
    (items : List Json) (r : SearchRequest)
    (hr : r ∈ (findLoop net url qs items).2.calls) :
    ∃ q ∈ qs, r = mkRequest url q (some 3) := by
  induction qs generalizing items with
  | nil => simp [findLoop] at hr
  | cons q rest ih =>
    have hc := call_vector_search_calls net url q (some 3)
    cases hsub : pySubscript (call_vector_search net url q (some 3)).1 "items" with
    | error e =>
      rw [findLoop_cons_sub_err net url q rest items e hsub] at hr
      simp [hc] at hr
      exact ⟨q, by simp, hr⟩
    | ok v =>
      cases hext : pyExtend items v with
      | error e =>
        rw [findLoop_cons_ext_err net url q rest items v e hsub hext] at hr
        simp [hc] at hr
        exact ⟨q, by simp, hr⟩
      | ok items' =>
        rw [findLoop_cons_ok net url q rest items v items' hsub hext] at hr
        simp only [Effects.seq, hc] at hr
        rcases List.mem_append.mp hr with h1 | h2
        · exact ⟨q, by simp, by simpa using h1⟩
        · obtain ⟨p, hp, hpr⟩ := ih items' h2
          exact ⟨p, by simp [hp], hpr⟩

/-- Unfolding of `find_shopping_items` when the loop completes. -/
theorem find_eq_of_loop_ok (net : Net) (queries : List String)
    (items : List Json) (eff : Effects)
    (h : findLoop net shopUrl queries [] = (.ok items, eff)) :
    find_shopping_items net queries =
      (.ok (.arr items), eff.seq ⟨[], summaryLog queries items⟩) := by
  simp only [find_shopping_items, h]

/-- Unfolding of `find_shopping_items` when the loop raises. -/
theorem find_fst_err (net : Net) (queries : List String) (e : PyErr)
    (h : (findLoop net shopUrl queries []).1 = .error e) :
    (find_shopping_items net queries).1 = .error e := by
  simp only [find_shopping_items, h]

/-- When every query's lookup is answered with status 200 and an `"items"`
array, the loop completes with the input-order concatenation of the item
lists appended to the accumulator, having issued exactly one request per
query, in input order, and printed nothing. -/
theorem findLoop_success (net : Net) (itemsOf : String → List Json)
    (qs : List String) (items : List Json)
    (h : ∀ q ∈ qs, net (mkRequest shopUrl q (some 3)) =
      HttpOutcome.response 200 (some (.obj [("items", .arr (itemsOf q))]))) :
    findLoop net shopUrl qs items =
      (.ok (items ++ (qs.map itemsOf).flatten), ⟨expectedCalls qs, []⟩) := by
  induction qs generalizing items with
  | nil => simp [findLoop, expectedCalls]
  | cons q rest ih =>
    have hq := h q (by simp)
    have hcall := call_vector_search_ok net shopUrl q (some 3) _ hq
    have hsub : pySubscript (call_vector_search net shopUrl q (some 3)).1 "items" =
        .ok (.arr (itemsOf q)) := by
      rw [hcall]
      rfl
    have hext : pyExtend items (.arr (itemsOf q)) = .ok (items ++ itemsOf q) := rfl
    rw [findLoop_cons_ok net shopUrl q rest items _ _ hsub hext,
      ih (items ++ itemsOf q) (fun p hp => h p (by simp [hp])), hcall]
    simp [Effects.seq, expectedCalls]

/-- When every query's lookup under `net` is well formed, the loop completes
and issues exactly one request per query, in input order. -/
theorem findLoop_wellFormed (net : Net) (qs : List String) (items : List Json)
    (h : ∀ q ∈ qs, wellFormed net q) :
    (∃ v, (findLoop net shopUrl qs items).1 = .ok v) ∧
    (findLoop net shopUrl qs items).2.calls = expectedCalls qs := by
  induction qs generalizing items with
  | nil => exact ⟨⟨items, rfl⟩, rfl⟩
  | cons q rest ih =>
    obtain ⟨xs, hq⟩ := h q (by simp)
    have hcall := call_vector_search_ok net shopUrl q (some 3) _ hq
    have hsub : pySubscript (call_vector_search net shopUrl q (some 3)).1 "items" =
        .ok (.arr xs) := by
      rw [hcall]
      rfl
    have hext : pyExtend items (.arr xs) = .ok (items ++ xs) := rfl
    obtain ⟨⟨v, hv⟩, hcalls⟩ := ih (items ++ xs) (fun p hp => h p (by simp [hp]))
    rw [findLoop_cons_ok net shopUrl q rest items _ _ hsub hext]
    refine ⟨⟨v, hv⟩, ?_⟩
    simp [Effects.seq, hcall, hcalls, expectedCalls]

/-- When some query in the list has a bad lookup (a `None` result or a
response object without the `"items"` key), the loop raises. -/
theorem findLoop_bad (net : Net) (qs : List String) (items : List Json)
    (h : ∃ q ∈ qs, badLookup net q) :
    ∃ e, (findLoop net shopUrl qs items).1 = .error e := by
  induction qs generalizing items with
  | nil => simp at h
  | cons q rest ih =>
    cases hsub : pySubscript (call_vector_search net shopUrl q (some 3)).1 "items" with
    | error e =>
      exact ⟨e, by rw [findLoop_cons_sub_err net shopUrl q rest items e hsub]⟩
    | ok v =>
      have hqrest : ∃ p ∈ rest, badLookup net p := by
        rcases h with ⟨p, hp, hbad⟩
        rcases List.mem_cons.mp hp with rfl | hp'
        · exfalso
          rcases hbad with hnone | ⟨fields, hobj, hlk⟩
          · rw [hnone] at hsub
            simp [pySubscript] at hsub
          · rw [hobj] at hsub
            simp [pySubscript, hlk] at hsub
        · exact ⟨p, hp', hbad⟩
      cases hext : pyExtend items v with
      | error e =>
        exact ⟨e, by rw [findLoop_cons_ext_err net shopUrl q rest items v e hsub hext]⟩
      | ok items' =>
        obtain ⟨e, he⟩ := ih items' hqrest
        exact ⟨e, by
          rw [findLoop_cons_ok net shopUrl q rest items v items' hsub hext]
          exact he⟩

/-- The loop consults the network only at the requests it issues: two
networks agreeing there produce identical results and identical side
effects. -/
theorem findLoop_local (net₁ net₂ : Net) (url : String) (qs : List String)
    (items : List Json)
    (h : ∀ r ∈ (findLoop net₁ url qs items).2.calls, net₂ r = net₁ r) :
    findLoop net₂ url qs items = findLoop net₁ url qs items := by
  induction qs generalizing items with
  | nil => rfl
  | cons q rest ih =>
    have hhead : mkRequest url q (some 3) ∈ (findLoop net₁ url (q :: rest) items).2.calls := by
      obtain ⟨tail, ht⟩ := findLoop_calls_cons net₁ url q rest items
      rw [ht]
      exact List.mem_cons_self _ _
    have hq : net₂ (mkRequest url q (some 3)) = net₁ (mkRequest url q (some 3)) := h _ hhead
    have hcall := call_vector_search_local net₁ net₂ url q (some 3) hq
    cases hsub : pySubscript (call_vector_search net₁ url q (some 3)).1 "items" with
    | error e =>
      rw [findLoop_cons_sub_err net₁ url q rest items e hsub,
        findLoop_cons_sub_err net₂ url q rest items e (by rw [hcall]; exact hsub), hcall]
    | ok v =>
      cases hext : pyExtend items v with
      | error e =>
        rw [findLoop_cons_ext_err net₁ url q rest items v e hsub hext,
          findLoop_cons_ext_err net₂ url q rest items v e (by rw [hcall]; exact hsub) hext,
          hcall]
      | ok items' =>
        have hrest : ∀ r ∈ (findLoop net₁ url rest items').2.calls, net₂ r = net₁ r := by
          intro r hr
          apply h
          rw [findLoop_cons_ok net₁ url q rest items v items' hsub hext]
          simp only [Effects.seq, List.mem_append]
          exact Or.inr hr
        rw [findLoop_cons_ok net₁ url q rest items v items' hsub hext,
          findLoop_cons_ok net₂ url q rest items v items' (by rw [hcall]; exact hsub) hext,
          hcall, ih items' hrest]

/-- The requests `find_shopping_items` issues are exactly the requests its
loop issues (the trailing summary prints add no calls). -/
theorem find_calls_eq (net : Net) (queries : List String) :
    (find_shopping_items net queries).2.calls =
      (findLoop net shopUrl queries []).2.calls := by
  cases h : (findLoop net shopUrl queries []).1 with
  | error e => simp [find_shopping_items, h]
  | ok items => simp [find_shopping_items, h, Effects.seq]

/-- C1 counterexample: under a network where every call fails at the
transport level, `find_shopping_items` on the two-query input `["a", "b"]`
issues only the first query's request before the unguarded `result["items"]`
raises, so it does not invoke the single-lookup client once per query. -/
theorem c1_counterexample :
    (find_shopping_items failNet ["a", "b"]).2.calls ≠ expectedCalls ["a", "b"] := by
  have h1 : (find_shopping_items failNet ["a", "b"]).2.calls
      = [mkRequest shopUrl "a" (some 3)] := rfl
  intro h
  rw [h1] at h
  have h2 := congrArg List.length h
  simp [expectedCalls] at h2

/-- C1 (amended): for every input list of queries whose lookups all yield
well-formed responses, `find_shopping_items` invokes the single-lookup
client exactly once per query, in input order (the issued-request trace is
the per-query request list); sequencing — each call issued only after the
previous one returned — is inherent in the sequential `for` loop, which the
embedding models by strictly sequential effect accumulation.  Without the
well-formedness condition, a failing lookup aborts the loop and later
queries are never issued (see the counterexample). -/
theorem c1_calls_once_per_query (net : Net) (queries : List String)
    (hne : queries ≠ []) (hwf : ∀ q ∈ queries, wellFormed net q) :
    (find_shopping_items net queries).2.calls = expectedCalls queries := by
  obtain ⟨⟨v, hv⟩, hcalls⟩ := findLoop_wellFormed net queries [] hwf
  have hpair : findLoop net shopUrl queries [] =
      (.ok v, (findLoop net shopUrl queries []).2) := by
    rw [← hv]
  rw [find_eq_of_loop_ok net queries v _ hpair]
  simp [Effects.seq, hcalls]

/-- C1 witness: the amended theorem applied to the singleton input `["a"]`
under a network answering every request with an empty item list. -/
theorem c1_witness :
    ((["a"] : List String) ≠ []) ∧
    (∀ q ∈ (["a"] : List String), wellFormed emptyItemsNet q) ∧
    (find_shopping_items emptyItemsNet ["a"]).2.calls = expectedCalls ["a"] :=
  ⟨by simp, fun q _ => ⟨[], rfl⟩,
    c1_calls_once_per_query emptyItemsNet ["a"] (by simp) (fun q _ => ⟨[], rfl⟩)⟩

/-- C2: when every query's lookup succeeds with an `"items"` array, the
value `find_shopping_items` returns is the concatenation, in input-query
order, of the per-query item lists — so one query returning N items yields
exactly those N items in order, and two queries returning M and N items
yield M+N items with the first query's items first. -/
theorem c2_concat_in_order (net : Net) (itemsOf : String → List Json)
    (queries : List String)
    (h : ∀ q ∈ queries, net (mkRequest shopUrl q (some 3)) =
      HttpOutcome.response 200 (some (.obj [("items", .arr (itemsOf q))]))) :
    (find_shopping_items net queries).1 =
      .ok (.arr (queries.map itemsOf).flatten) := by
  have hl := findLoop_success net itemsOf queries [] h
  rw [find_eq_of_loop_ok net queries _ _ hl]
  rfl

/-- C2 witness: the spec's example scenario — two queries answered with 3
mocked items each — yields the 6 items in order, first query's items
first. -/
theorem c2_witness :
    (∀ q ∈ (["Cups with dancing people", "Cups with dancing animals"] : List String),
      twoQueryNet (mkRequest shopUrl q (some 3)) =
        HttpOutcome.response 200 (some (.obj [("items", .arr (itemsOfTwo q))]))) ∧
    (find_shopping_items twoQueryNet
        ["Cups with dancing people", "Cups with dancing animals"]).1 =
      .ok (.arr ((["Cups with dancing people",
        "Cups with dancing animals"].map itemsOfTwo).flatten)) :=
  ⟨fun q _ => rfl,
    c2_concat_in_order twoQueryNet itemsOfTwo
      ["Cups with dancing people", "Cups with dancing animals"] (fun q _ => rfl)⟩

/-- C3 counterexample: a 304 response — a non-2xx status — with a
well-formed JSON body is returned as parsed JSON with nothing printed,
because `raise_for_status` raises only for statuses 400–599; the claim's
"any non-2xx status" is therefore too broad. -/
theorem c3_counterexample :
    is2xx 304 = false ∧
    (call_vector_search redirectNet shopUrl "q" none).1 =
      some (.obj [("items", .arr [])]) ∧
    (call_vector_search redirectNet shopUrl "q" none).2.log = [] :=
  ⟨rfl, rfl, rfl⟩

/-- C3 (amended): for every lookup whose HTTP call yields a 4xx/5xx status
(the statuses `raise_for_status` raises for), a transport error, or a
malformed JSON response body, `call_vector_search` prints an error message
and returns `None` instead of letting the exception past its boundary;
non-2xx statuses outside 400–599 are not treated as failures. -/
theorem c3_failure_reporting (net : Net) (url query : String) (rows : Option Int)
    (h : failureOutcome (net (mkRequest url query rows)) = true) :
    (call_vector_search net url query rows).1 = none ∧
    ∃ msg, (call_vector_search net url query rows).2.log = [errorMessage msg] := by
  cases hnet : net (mkRequest url query rows) with
  | transportError msg =>
    exact ⟨by simp [call_vector_search, hnet], msg, by simp [call_vector_search, hnet]⟩
  | response status body =>
    rw [hnet] at h
    simp only [failureOutcome, Bool.or_eq_true] at h
    by_cases hs : raisesForStatus status = true
    · exact ⟨by simp [call_vector_search, hnet, hs], statusErrorText status,
        by simp [call_vector_search, hnet, hs]⟩
    · have hb : body = none := by
        rcases h with h | h
        · exact absurd h hs
        · exact Option.isNone_iff_eq_none.mp h
      subst hb
      exact ⟨by simp [call_vector_search, hnet, hs], "malformed JSON body",
        by simp [call_vector_search, hnet, hs]⟩

/-- C3 witness: the amended theorem applied to a transport-level failure. -/
theorem c3_witness :
    failureOutcome (failNet (mkRequest shopUrl "q" none)) = true ∧
    (call_vector_search failNet shopUrl "q" none).1 = none ∧
    ∃ msg, (call_vector_search failNet shopUrl "q" none).2.log = [errorMessage msg] :=
  ⟨rfl, c3_failure_reporting failNet shopUrl "q" none rfl⟩

/-- C4: whenever some query's lookup fails (`call_vector_search` returns
`None`) or yields a response object without the `"items"` key,
`find_shopping_items` raises an unhandled Python exception (`TypeError` or
`KeyError` from the unguarded `result["items"]`) instead of reporting the
failure or returning a partial result. -/
theorem c4_unguarded_crash (net : Net) (queries : List String)
    (h : ∃ q ∈ queries, badLookup net q) :
    ∃ e, (find_shopping_items net queries).1 = .error e := by
  obtain ⟨e, he⟩ := findLoop_bad net queries [] h
  exact ⟨e, find_fst_err net queries e he⟩

/-- C4 witness: a transport failure on the single query `["a"]` makes
`find_shopping_items` raise. -/
theorem c4_witness :
    (∃ q ∈ (["a"] : List String), badLookup failNet q) ∧
    ∃ e, (find_shopping_items failNet ["a"]).1 = .error e :=
  ⟨⟨"a", by simp, Or.inl rfl⟩,
    c4_unguarded_crash failNet ["a"] ⟨"a", by simp, Or.inl rfl⟩⟩

/-- C5: every call of `call_vector_search` issues exactly the request it
built, whose payload carries the fixed defaults `dataset_id =
"mercari3m_mm"`, `use_dense = true`, `use_sparse = true`, `rrf_alpha = 0.5`
and `use_rerank = true`, and whose headers are
`Content-Type: application/json`. -/
theorem c5_fixed_payload_defaults (net : Net) (url query : String)
    (rows : Option Int) :
    (call_vector_search net url query rows).2.calls = [mkRequest url query rows] ∧
    (mkRequest url query rows).payload.dataset_id = "mercari3m_mm" ∧
    (mkRequest url query rows).payload.use_dense = true ∧
    (mkRequest url query rows).payload.use_sparse = true ∧
    (mkRequest url query rows).payload.rrf_alpha = 1/2 ∧
    (mkRequest url query rows).payload.use_rerank = true ∧
    (mkRequest url query rows).headers = [("Content-Type", "application/json")] :=
  ⟨call_vector_search_calls net url query rows, rfl, rfl, rfl, rfl, rfl, rfl⟩

/-- C6: the `query` field of the payload in the one request
`call_vector_search` issues equals the input query string exactly. -/
theorem c6_query_round_trip (net : Net) (url query : String)
    (rows : Option Int) :
    (call_vector_search net url query rows).2.calls = [mkRequest url query rows] ∧
    (mkRequest url query rows).payload.query = query :=
  ⟨call_vector_search_calls net url query rows, rfl⟩

/-- C7: every request `find_shopping_items` issues carries the fixed row
limit 3. -/
theorem c7_row_limit_three (net : Net) (queries : List String)
    (r : SearchRequest) (hr : r ∈ (find_shopping_items net queries).2.calls) :
    r.payload.rows = some 3 := by
  rw [find_calls_eq] at hr
  obtain ⟨q, hq, rfl⟩ := findLoop_calls_shape net shopUrl queries [] r hr
  rfl

/-- C7 witness: the one request issued for the input `["a"]` carries row
limit 3. -/
theorem c7_witness :
    (mkRequest shopUrl "a" (some 3) ∈ (find_shopping_items failNet ["a"]).2.calls) ∧
    (mkRequest shopUrl "a" (some 3)).payload.rows = some 3 := by
  have hm : mkRequest shopUrl "a" (some 3) ∈
      (find_shopping_items failNet ["a"]).2.calls := by
    have hc : (find_shopping_items failNet ["a"]).2.calls
        = [mkRequest shopUrl "a" (some 3)] := rfl
    rw [hc]
    exact List.mem_cons_self _ _
  exact ⟨hm, c7_row_limit_three failNet ["a"] (mkRequest shopUrl "a" (some 3)) hm⟩

/-- C8: `find_shopping_items` reads no state beyond its explicit arguments
and the network's answers to the requests it itself issues, and threads no
state between calls: any two networks agreeing on those requests give
bit-identical results and side effects, so there is no cross-call caching
and no shared mutable state (both functions are state-free in the
embedding, matching the source, which writes no global and keeps every
request, response and item list in locals). -/
theorem c8_no_shared_state (net₁ net₂ : Net) (queries : List String)
    (h : ∀ r ∈ (find_shopping_items net₁ queries).2.calls, net₂ r = net₁ r) :
    find_shopping_items net₂ queries = find_shopping_items net₁ queries := by
  have h' : ∀ r ∈ (findLoop net₁ shopUrl queries []).2.calls, net₂ r = net₁ r := by
    intro r hr
    exact h r (by rw [find_calls_eq]; exact hr)
  have hloop := findLoop_local net₁ net₂ shopUrl queries [] h'
  simp only [find_shopping_items, hloop]

/-- C8 witness: a network agreeing with the failing network on the issued
requests (row limit 3) but differing elsewhere produces the identical run. -/
theorem c8_witness :
    (∀ r ∈ (find_shopping_items failNet ["a"]).2.calls, mixedNet r = failNet r) ∧
    find_shopping_items mixedNet ["a"] = find_shopping_items failNet ["a"] := by
  have hag : ∀ r ∈ (find_shopping_items failNet ["a"]).2.calls,
      mixedNet r = failNet r := by
    intro r hr
    have hc : (find_shopping_items failNet ["a"]).2.calls
        = [mkRequest shopUrl "a" (some 3)] := rfl
    rw [hc] at hr
    rcases List.mem_singleton.mp hr with rfl
    rfl
  exact ⟨hag, c8_no_shared_state failNet mixedNet ["a"] hag⟩

/-- C9: on the empty query list, `find_shopping_items` returns the empty
item list and issues no remote call. -/
theorem c9_empty_input (net : Net) :
    (find_shopping_items net []).1 = .ok (.arr []) ∧
    (find_shopping_items net []).2.calls = [] :=
  ⟨rfl, rfl⟩

/-- C10: every successful return value of `find_shopping_items` is the bare
flat item list (a Python list, `Json.arr` here), never a dict — in
particular never the `{"status", "items"}` dict its declared
`Dict[str, str]` return type and docstring promise. -/
theorem c10_bare_list_return (net : Net) (queries : List String) (v : Json)
    (eff : Effects) (h : find_shopping_items net queries = (.ok v, eff)) :
    (∃ xs, v = .arr xs) ∧ ∀ fields, v ≠ .obj fields := by
  cases hl : (findLoop net shopUrl queries []).1 with
  | error e =>
    have herr := find_fst_err net queries e hl
    rw [h] at herr
    simp at herr
  | ok items =>
    have hfst : (find_shopping_items net queries).1 = .ok (.arr items) := by
      simp only [find_shopping_items, hl]
    rw [h] at hfst
    simp only [Except.ok.injEq] at hfst
    subst hfst
    exact ⟨⟨items, rfl⟩, fun fields hne => Json.noConfusion hne⟩

/-- C10 witness: a successful singleton run returns the bare (empty) list,
which is an array and not an object. -/
theorem c10_witness :
    find_shopping_items emptyItemsNet ["a"] =
      (.ok (.arr []), ⟨expectedCalls ["a"], summaryLog ["a"] []⟩) ∧
    ((∃ xs, (Json.arr []) = Json.arr xs) ∧ ∀ fields, (Json.arr []) ≠ Json.obj fields) :=
  ⟨rfl, c10_bare_list_return emptyItemsNet ["a"] (Json.arr [])
    ⟨expectedCalls ["a"], summaryLog ["a"] []⟩ rfl⟩

end ShopAgent
